import Mathlib

/-!
Verification of the `ts-service-locator` repository (src/src/index.ts).

The module holds one global mutable object
`const instances: Record<string, any> = {}` shared by every locator the
factory `createServiceLocator` produces.  Each locator exposes

  set(instanceId, instance): if `isString(instanceId)` then
    `instances[instanceId] = instance` else do nothing;
  get(instanceId): if `isString(instanceId) && instances[instanceId]`
    (i.e. the stored value is truthy) then return `instances[instanceId]`
    else return `undefined` (the implicit return of a JS function).

The backing object is a plain object literal, so its prototype is
`Object.prototype`, and the bracket operations follow full JavaScript
property semantics, not a bare map:

* a read `instances[k]` that misses the own properties continues along the
  prototype chain, so keys such as `"toString"` or `"constructor"` yield
  the inherited (truthy) members of `Object.prototype`, and `"__proto__"`
  hits the inherited accessor, whose getter returns the current prototype;
* a write `instances[k] = v` with `k = "__proto__"` that reaches that
  accessor invokes its setter instead of creating an entry: the setter
  rewires the prototype when `v` is an object or `null` and silently does
  nothing for any other value.  Only when the accessor is not reachable
  (an own `"__proto__"` data property shadows it, or the chain no longer
  contains `Object.prototype`) does the assignment create or update an own
  data property.

We embed JavaScript values shallowly: numbers are modelled as integers
(the falsy number of interest is `0`), caller-created plain objects as
opaque reference identities whose own data properties live in an
immutable environment, so equality of `JSValue.vObj` models reference
equality.  Inherited members of `Object.prototype` are modelled as
`vBuiltinFun` values carrying the member name.  Two deliberate
simplifications, on which no theorem below depends: modelled caller
objects are plain literals (data properties only, prototype
`Object.prototype`), and when the prototype has been rewired to a
function object we elide the function's own `name`/`length` properties
and the members of `Function.prototype`, falling through directly to
`Object.prototype`.  The store is threaded explicitly; `SL.get` returns
the store it leaves behind together with its result, so that side-effect
freedom is statable.
-/

inductive JSValue where
  | vUndefined : JSValue
  | vNull : JSValue
  | vBool : Bool → JSValue
  | vNum : Int → JSValue
  | vStr : String → JSValue
  | vObj : Nat → JSValue
  | vObjectProto : JSValue
  | vBuiltinFun : String → JSValue
deriving DecidableEq, Repr

/-- JavaScript truthiness of a value, as tested by
`if (… && instances[instanceId])`.  Objects and functions are truthy. -/
def truthy : JSValue → Bool
  | .vUndefined => false
  | .vNull => false
  | .vBool b => b
  | .vNum n => n != 0
  | .vStr s => s != ""
  | .vObj _ => true
  | .vObjectProto => true
  | .vBuiltinFun _ => true

/-- `function isString(arg) { return typeof arg === "string"; }` -/
def isString : JSValue → Bool
  | .vStr _ => true
  | _ => false

/-- The string payload of a value; only used under an `isString` guard,
mirroring the narrowing `arg is string` of the type guard. -/
def strVal : JSValue → String
  | .vStr s => s
  | _ => ""

/-- A JavaScript value is an object (for the purposes of the
`Object.prototype.__proto__` setter, which also accepts `null`). -/
def isObjectVal : JSValue → Bool
  | .vObj _ => true
  | .vObjectProto => true
  | .vBuiltinFun _ => true
  | _ => false

/-- The names of the function-valued members of `Object.prototype`,
inherited by every plain object.  (`"__proto__"` is not listed here: it is
an accessor property, handled separately.) -/
def objectProtoMembers : List String :=
  ["constructor", "hasOwnProperty", "isPrototypeOf", "propertyIsEnumerable",
   "toLocaleString", "toString", "valueOf",
   "__defineGetter__", "__defineSetter__", "__lookupGetter__", "__lookupSetter__"]

/-- The immutable heap of caller-created plain objects: own data
properties per object identity.  Identities without an entry denote empty
objects `\x7b\x7d`. -/
abbrev Env := List (Nat × List (String × JSValue))

/-- Own data properties of the caller object with the given identity. -/
def envProps : Env → Nat → List (String × JSValue)
  | [], _ => []
  | (i, props) :: rest, id => if i = id then props else envProps rest id

/-- The current prototype of the backing object: `Object.prototype`
initially, possibly rewired to `null`, a caller object, or a function
object by the inherited `__proto__` setter. -/
inductive ProtoRef where
  | objectProto : ProtoRef
  | pNull : ProtoRef
  | pObj : Nat → ProtoRef
  | pFun : String → ProtoRef
deriving DecidableEq, Repr

/-- The prototype as a JavaScript value, as returned by the inherited
`__proto__` getter. -/
def protoVal : ProtoRef → JSValue
  | .objectProto => .vObjectProto
  | .pNull => .vNull
  | .pObj id => .vObj id
  | .pFun n => .vBuiltinFun n

/-- The mutable state reachable from `instances`: its own data
properties, its current prototype, and the (immutable) caller heap. -/
structure Store where
  own : List (String × JSValue)
  proto : ProtoRef
  env : Env
deriving DecidableEq, Repr

/-- `const instances: Record<string, any> = {}` — at module load the
object has no own properties and prototype `Object.prototype`. -/
def instancesInit : Store := ⟨[], .objectProto, []⟩

/-- Own-property lookup in a property list. -/
def lookupOwn : List (String × JSValue) → String → Option JSValue
  | [], _ => none
  | (k', v) :: rest, k => if k' = k then some v else lookupOwn rest k

/-- Own-property update in a property list: replaces an existing binding
or appends a fresh one. -/
def setOwn : List (String × JSValue) → String → JSValue → List (String × JSValue)
  | [], k, v => [(k, v)]
  | (k', v') :: rest, k, v =>
      if k' = k then (k, v) :: rest else (k', v') :: setOwn rest k v

/-- A property list has a binding for `k`. -/
def hasOwn : List (String × JSValue) → String → Bool
  | [], _ => false
  | (k', _) :: rest, k => k' == k || hasOwn rest k

/-- The backing object has an own entry for `k` (regardless of the
truthiness of the stored value). -/
def hasEntry (st : Store) (k : String) : Bool :=
  hasOwn st.own k

/-- Reading key `k` on `Object.prototype` with receiver `instances`:
the `__proto__` getter returns the receiver's current prototype, the
function members are truthy builtins, everything else is absent. -/
def objectProtoGet (proto : ProtoRef) (k : String) : JSValue :=
  if k = "__proto__" then protoVal proto
  else if objectProtoMembers.contains k then .vBuiltinFun k
  else .vUndefined

/-- Continuing a read of `instances[k]` past the own properties, along
the prototype chain. -/
def protoGet (env : Env) (proto : ProtoRef) (k : String) : JSValue :=
  match proto with
  | .pNull => .vUndefined
  | .objectProto => objectProtoGet proto k
  | .pObj id =>
      match lookupOwn (envProps env id) k with
      | some v => v
      | none => objectProtoGet proto k
  | .pFun _ => objectProtoGet proto k

/-- The read `instances[k]`: own properties first, then the prototype
chain; `undefined` when nothing is found. -/
def storeGet (st : Store) (k : String) : JSValue :=
  match lookupOwn st.own k with
  | some v => v
  | none => protoGet st.env st.proto k

/-- The assignment `instances[k] = v` reaches the inherited `__proto__`
setter exactly when `k` is `"__proto__"`, no own data property shadows it,
and the prototype chain still contains `Object.prototype` without an
intervening `"__proto__"` data property. -/
def protoSetterReached (st : Store) (k : String) : Bool :=
  if k = "__proto__" then
    (lookupOwn st.own k).isNone &&
      (match st.proto with
       | .pNull => false
       | .objectProto => true
       | .pFun _ => true
       | .pObj id => (lookupOwn (envProps st.env id) "__proto__").isNone)
  else false

/-- The `Object.prototype.__proto__` setter applied to receiver
`instances`: rewires the prototype for an object or `null` value, and is
a silent no-op for every other value. -/
def setterApply (st : Store) (v : JSValue) : Store :=
  match v with
  | .vObj id => { st with proto := .pObj id }
  | .vObjectProto => { st with proto := .objectProto }
  | .vBuiltinFun n => { st with proto := .pFun n }
  | .vNull => { st with proto := .pNull }
  | _ => st

/-- The assignment `instances[k] = v`: invoke the inherited setter when
it is reached, otherwise create or update an own data property. -/
def assignProp (st : Store) (k : String) (v : JSValue) : Store :=
  if protoSetterReached st k then setterApply st v
  else { st with own := setOwn st.own k v }

namespace SL

/-- `set(instanceId, instance)` from src/src/index.ts: guarded by
`isString(instanceId)`, silently a no-op otherwise; the body is the
assignment `instances[instanceId] = instance`. -/
def set (st : Store) (instanceId instVal : JSValue) : Store :=
  if isString instanceId then assignProp st (strVal instanceId) instVal
  else st

/-- `get(instanceId)` from src/src/index.ts: returns the value of
`instances[instanceId]` when the key is a string and that value is
truthy, otherwise the implicit `undefined`.  The first component is the
store after the call (the body only reads; the one accessor a read can
hit, the `__proto__` getter, is pure). -/
def get (st : Store) (instanceId : JSValue) : Store × JSValue :=
  if isString instanceId && truthy (storeGet st (strVal instanceId)) then
    (st, storeGet st (strVal instanceId))
  else
    (st, .vUndefined)

end SL

/-- A locator instance produced by the factory.  It carries only an
identity: the closures it holds all capture the single module-level
`instances`, so its methods act on the shared store. -/
structure Locator where
  id : Nat
deriving DecidableEq, Repr

/-- `createServiceLocator<T>()`: each call yields a fresh instance (we tag
it with a number), with no per-instance state. -/
def createServiceLocator (fresh : Nat) : Locator := ⟨fresh⟩

/-- `sl.set(…)` — the closure writes through to the shared store. -/
def Locator.set (_sl : Locator) (st : Store) (k v : JSValue) : Store :=
  SL.set st k v

/-- `sl.get(…)` — the closure reads from the shared store. -/
def Locator.get (_sl : Locator) (st : Store) (k : JSValue) : Store × JSValue :=
  SL.get st k

/-- One call of the public API, for trace-level properties. -/
inductive Op where
  | opSet (key value : JSValue)
  | opGet (key : JSValue)
deriving DecidableEq, Repr

/-- Effect of one public call on the shared store. -/
def stepOp (op : Op) (st : Store) : Store :=
  match op with
  | .opSet k v => SL.set st k v
  | .opGet k => (SL.get st k).1

/-- Effect of a sequence of public calls on the shared store. -/
def runOps : List Op → Store → Store
  | [], st => st
  | op :: rest, st => runOps rest (stepOp op st)

/-! ### Helper lemmas -/

theorem lookupOwn_setOwn_self (l : List (String × JSValue)) (k : String)
    (v : JSValue) : lookupOwn (setOwn l k v) k = some v := by
  induction l with
  | nil => simp [setOwn, lookupOwn]
  | cons p rest ih =>
    obtain ⟨k', v'⟩ := p
    by_cases h : k' = k
    · simp [setOwn, lookupOwn, h]
    · simp [setOwn, lookupOwn, h, ih]

theorem lookupOwn_setOwn_ne (l : List (String × JSValue)) (k k' : String)
    (v : JSValue) (hne : k' ≠ k) :
    lookupOwn (setOwn l k v) k' = lookupOwn l k' := by
  induction l with
  | nil => simp [setOwn, lookupOwn, Ne.symm hne]
  | cons p rest ih =>
    obtain ⟨k'', v''⟩ := p
    by_cases h : k'' = k
    · subst h
      simp [setOwn, lookupOwn, Ne.symm hne]
    · simp [setOwn, lookupOwn, h, ih]

theorem setOwn_setOwn_self (l : List (String × JSValue)) (k : String)
    (v w : JSValue) : setOwn (setOwn l k v) k w = setOwn l k w := by
  induction l with
  | nil => simp [setOwn]
  | cons p rest ih =>
    obtain ⟨k', v'⟩ := p
    by_cases h : k' = k
    · simp [setOwn, h]
    · simp [setOwn, h, ih]

theorem hasOwn_setOwn_of_hasOwn (l : List (String × JSValue)) (k k' : String)
    (v : JSValue) (h : hasOwn l k' = true) :
    hasOwn (setOwn l k v) k' = true := by
  induction l with
  | nil => simp [hasOwn] at h
  | cons p rest ih =>
    obtain ⟨k'', v''⟩ := p
    by_cases hk : k'' = k
    · subst hk
      simp [hasOwn, setOwn] at h ⊢
      exact h
    · simp [hasOwn, setOwn, hk] at h ⊢
      rcases h with h | h
      · left; exact h
      · right; exact ih h

theorem get_fst_eq (st : Store) (k : JSValue) : (SL.get st k).1 = st := by
  unfold SL.get
  split <;> rfl

theorem protoSetterReached_ne (st : Store) (k : String)
    (hk : k ≠ "__proto__") : protoSetterReached st k = false := by
  simp [protoSetterReached, hk]

theorem set_ownWrite (st : Store) (k : String) (v : JSValue)
    (hk : k ≠ "__proto__") :
    SL.set st (.vStr k) v = { st with own := setOwn st.own k v } := by
  simp [SL.set, isString, strVal, assignProp, protoSetterReached_ne st k hk]

theorem storeGet_setOwn_self (st : Store) (k : String) (v : JSValue) :
    storeGet { st with own := setOwn st.own k v } k = v := by
  obtain ⟨o, p, e⟩ := st
  simp [storeGet, lookupOwn_setOwn_self]

theorem storeGet_setOwn_ne (st : Store) (k k' : String) (v : JSValue)
    (hne : k' ≠ k) :
    storeGet { st with own := setOwn st.own k v } k' = storeGet st k' := by
  obtain ⟨o, p, e⟩ := st
  simp only [storeGet]
  rw [lookupOwn_setOwn_ne o k k' v hne]

theorem roundtrip_aux (st : Store) (k : String) (v : JSValue)
    (hk : k ≠ "__proto__") (hv : truthy v = true) :
    (SL.get (SL.set st (.vStr k) v) (.vStr k)).2 = v := by
  rw [set_ownWrite st k v hk]
  simp [SL.get, isString, strVal, storeGet_setOwn_self, hv]

theorem runOps_no_set_invariant (ops : List Op) (k : String) :
    ∀ st : Store, (∀ v, Op.opSet (.vStr k) v ∉ ops) →
      (∀ v, Op.opSet (.vStr "__proto__") v ∉ ops) →
      lookupOwn (runOps ops st).own k = lookupOwn st.own k ∧
      (runOps ops st).proto = st.proto ∧ (runOps ops st).env = st.env := by
  induction ops with
  | nil =>
    intro st _ _
    exact ⟨rfl, rfl, rfl⟩
  | cons op rest ih =>
    intro st h hp
    have h' : ∀ v, Op.opSet (.vStr k) v ∉ rest := fun v hv =>
      h v (List.mem_cons_of_mem _ hv)
    have hp' : ∀ v, Op.opSet (.vStr "__proto__") v ∉ rest := fun v hv =>
      hp v (List.mem_cons_of_mem _ hv)
    obtain ⟨r1, r2, r3⟩ := ih (stepOp op st) h' hp'
    have hstep : lookupOwn (stepOp op st).own k = lookupOwn st.own k ∧
        (stepOp op st).proto = st.proto ∧ (stepOp op st).env = st.env := by
      cases op with
      | opGet key =>
        have hg : stepOp (Op.opGet key) st = st := get_fst_eq st key
        rw [hg]
        exact ⟨rfl, rfl, rfl⟩
      | opSet key v =>
        cases key with
        | vStr s =>
          have hs : s ≠ "__proto__" := by
            intro hsp
            exact hp v (by rw [hsp]; exact List.mem_cons_self _ _)
          have hsk : s ≠ k := by
            intro hsk
            exact h v (by rw [hsk]; exact List.mem_cons_self _ _)
          have hw : stepOp (Op.opSet (.vStr s) v) st =
              { st with own := setOwn st.own s v } := set_ownWrite st s v hs
          rw [hw]
          exact ⟨lookupOwn_setOwn_ne st.own s k v (Ne.symm hsk), rfl, rfl⟩
        | vUndefined => exact ⟨rfl, rfl, rfl⟩
        | vNull => exact ⟨rfl, rfl, rfl⟩
        | vBool b => exact ⟨rfl, rfl, rfl⟩
        | vNum n => exact ⟨rfl, rfl, rfl⟩
        | vObj o => exact ⟨rfl, rfl, rfl⟩
        | vObjectProto => exact ⟨rfl, rfl, rfl⟩
        | vBuiltinFun n => exact ⟨rfl, rfl, rfl⟩
    exact ⟨r1.trans hstep.1, r2.trans hstep.2.1, r3.trans hstep.2.2⟩

/-! ### Claims -/

/-- C1 counterexample: the round trip fails at the key `"__proto__"`:
`set("__proto__", 1)` with the truthy value `1` invokes the inherited
setter, which ignores a non-object value and writes nothing, so
`get("__proto__")` returns the (truthy) prototype object, not `1`. -/
theorem set_get_roundtrip_proto_cex :
    truthy (JSValue.vNum 1) = true ∧
    (SL.get (SL.set instancesInit (.vStr "__proto__") (.vNum 1))
      (.vStr "__proto__")).2 = JSValue.vObjectProto ∧
    (SL.get (SL.set instancesInit (.vStr "__proto__") (.vNum 1))
      (.vStr "__proto__")).2 ≠ JSValue.vNum 1 := by
  decide

/-- C1 (amended): for every string key `k` other than `"__proto__"` and
every truthy value `v`, `set(k, v)` followed by `get(k)` (no intervening
set on `k`) returns exactly the stored value `v` (reference-equal:
`vObj` identities are preserved). -/
theorem set_get_roundtrip (st : Store) (k : String) (v : JSValue)
    (hk : k ≠ "__proto__") (hv : truthy v = true) :
    (SL.get (SL.set st (.vStr k) v) (.vStr k)).2 = v :=
  roundtrip_aux st k v hk hv

theorem set_get_roundtrip_witness :
    (("server" : String) ≠ "__proto__" ∧ truthy (JSValue.vObj 0) = true) ∧
    (SL.get (SL.set instancesInit (.vStr "server") (.vObj 0))
      (.vStr "server")).2 = .vObj 0 :=
  ⟨⟨by decide, rfl⟩, set_get_roundtrip instancesInit "server" (.vObj 0)
    (by decide) rfl⟩

/-- C2 counterexample: `"toString"` was never passed to `set` (the trace
is empty), yet `get("toString")` returns the truthy inherited member of
`Object.prototype`, not the absent sentinel. -/
theorem get_unset_key_inherited_cex :
    (SL.get (runOps [] instancesInit) (.vStr "toString")).2 =
      JSValue.vBuiltinFun "toString" ∧
    (SL.get (runOps [] instancesInit) (.vStr "toString")).2 ≠
      JSValue.vUndefined := by
  decide

/-- C2 (amended): for every string key `k` never passed to `set` in the
whole history of public calls since module load (on any locator
instance), `get(k)` returns the absent sentinel `undefined`, provided
`k` is not `"__proto__"`, `k` is not an inherited member of
`Object.prototype`, and no call in the history passed `"__proto__"` to
`set` (such a call can rewire the prototype and expose further keys). -/
theorem get_unset_key (ops : List Op) (k : String)
    (hk : k ≠ "__proto__")
    (hm : objectProtoMembers.contains k = false)
    (h : ∀ v, Op.opSet (.vStr k) v ∉ ops)
    (hp : ∀ v, Op.opSet (.vStr "__proto__") v ∉ ops) :
    (SL.get (runOps ops instancesInit) (.vStr k)).2 = .vUndefined := by
  obtain ⟨r1, r2, _⟩ := runOps_no_set_invariant ops k instancesInit h hp
  have e1 : lookupOwn (runOps ops instancesInit).own k = none := by
    rw [r1]
    rfl
  have hg : storeGet (runOps ops instancesInit) k = .vUndefined := by
    rw [storeGet, e1, r2]
    simp [instancesInit, protoGet, objectProtoGet, hk]
    simpa using hm
  simp [SL.get, isString, strVal, hg, truthy]

theorem get_unset_key_witness :
    (SL.get (runOps [Op.opSet (.vStr "logger") (.vObj 7)] instancesInit)
      (.vStr "server")).2 = .vUndefined :=
  get_unset_key [Op.opSet (.vStr "logger") (.vObj 7)] "server"
    (by decide) (by decide)
    (by intro v hv; simp at hv) (by intro v hv; simp at hv)

/-- C3 counterexample: last-write-wins fails at `"__proto__"`: with an
empty caller object `o` (identity `0`), `set("__proto__", o)` rewires the
prototype to `o`, the second call `set("__proto__", 1)` hits the setter
again and ignores the non-object value `1`, and `get("__proto__")`
returns `v1 = o` — never `v2`. -/
theorem set_overwrite_proto_cex :
    truthy (JSValue.vNum 1) = true ∧
    (SL.get (SL.set (SL.set instancesInit (.vStr "__proto__") (.vObj 0))
      (.vStr "__proto__") (.vNum 1)) (.vStr "__proto__")).2 =
      JSValue.vObj 0 ∧
    (SL.get (SL.set (SL.set instancesInit (.vStr "__proto__") (.vObj 0))
      (.vStr "__proto__") (.vNum 1)) (.vStr "__proto__")).2 ≠
      JSValue.vNum 1 := by
  decide

/-- C3 (amended): overwrite is last-write-wins for every string key `k`
other than `"__proto__"`: `set(k, v1)` then `set(k, v2)` then `get(k)`
returns `v2` (the later set replaces the prior value, no error). -/
theorem set_overwrite (st : Store) (k : String) (v1 v2 : JSValue)
    (hk : k ≠ "__proto__") (hv : truthy v2 = true) :
    (SL.get (SL.set (SL.set st (.vStr k) v1) (.vStr k) v2) (.vStr k)).2 = v2 :=
  roundtrip_aux (SL.set st (.vStr k) v1) k v2 hk hv

theorem set_overwrite_witness :
    (("server" : String) ≠ "__proto__" ∧ truthy (JSValue.vObj 2) = true) ∧
    (SL.get (SL.set (SL.set instancesInit (.vStr "server") (.vObj 1))
      (.vStr "server") (.vObj 2)) (.vStr "server")).2 = .vObj 2 :=
  ⟨⟨by decide, rfl⟩, set_overwrite instancesInit "server" (.vObj 1) (.vObj 2)
    (by decide) rfl⟩

/-- C4 counterexample: the falsy-value gap fails at `"__proto__"`:
`set("__proto__", 0)` is a silent no-op of the inherited setter, and
`get("__proto__")` returns the truthy prototype object, not the absent
sentinel. -/
theorem falsy_get_absent_proto_cex :
    truthy (JSValue.vNum 0) = false ∧
    (SL.get (SL.set instancesInit (.vStr "__proto__") (.vNum 0))
      (.vStr "__proto__")).2 = JSValue.vObjectProto ∧
    (SL.get (SL.set instancesInit (.vStr "__proto__") (.vNum 0))
      (.vStr "__proto__")).2 ≠ JSValue.vUndefined := by
  decide

/-- C4 (amended): for every string key `k` other than `"__proto__"`,
storing a falsy value (`0`, `""`, `false`, …) under `k` makes the
following `get(k)` return the absent sentinel `undefined`, not the
stored value. -/
theorem falsy_get_absent (st : Store) (k : String) (v : JSValue)
    (hk : k ≠ "__proto__") (hv : truthy v = false) :
    (SL.get (SL.set st (.vStr k) v) (.vStr k)).2 = .vUndefined := by
  rw [set_ownWrite st k v hk]
  simp [SL.get, isString, strVal, storeGet_setOwn_self, hv]

theorem falsy_get_absent_witness :
    (("server" : String) ≠ "__proto__" ∧ truthy (JSValue.vNum 0) = false) ∧
    (SL.get (SL.set instancesInit (.vStr "server") (.vNum 0))
      (.vStr "server")).2 = .vUndefined :=
  ⟨⟨by decide, rfl⟩, falsy_get_absent instancesInit "server" (.vNum 0)
    (by decide) rfl⟩

/-- C5 counterexample: cross-instance visibility fails at `"__proto__"`:
after `sl1.set("__proto__", 1)` with the truthy value `1`,
`sl2.get("__proto__")` returns the prototype object, not `1`. -/
theorem cross_instance_proto_cex :
    truthy (JSValue.vNum 1) = true ∧
    (Locator.get (createServiceLocator 1)
      (Locator.set (createServiceLocator 0) instancesInit
        (.vStr "__proto__") (.vNum 1)) (.vStr "__proto__")).2 =
      JSValue.vObjectProto ∧
    (Locator.get (createServiceLocator 1)
      (Locator.set (createServiceLocator 0) instancesInit
        (.vStr "__proto__") (.vNum 1)) (.vStr "__proto__")).2 ≠
      JSValue.vNum 1 := by
  decide

/-- C5 (amended): locator instances from independent factory calls share
the module-level store, so for every string key `k` other than
`"__proto__"`, after `sl1.set(k, v)` with truthy `v`, `sl2.get(k)`
returns `v`, whichever instances `sl1`, `sl2` are. -/
theorem cross_instance_visibility (sl1 sl2 : Locator) (st : Store)
    (k : String) (v : JSValue) (hk : k ≠ "__proto__")
    (hv : truthy v = true) :
    (Locator.get sl2 (Locator.set sl1 st (.vStr k) v) (.vStr k)).2 = v := by
  rw [Locator.get, Locator.set]
  exact roundtrip_aux st k v hk hv

theorem cross_instance_visibility_witness :
    (("server" : String) ≠ "__proto__" ∧ truthy (JSValue.vObj 3) = true) ∧
    (Locator.get (createServiceLocator 1)
      (Locator.set (createServiceLocator 0) instancesInit
        (.vStr "server") (.vObj 3)) (.vStr "server")).2 = .vObj 3 :=
  ⟨⟨by decide, rfl⟩, cross_instance_visibility (createServiceLocator 0)
    (createServiceLocator 1) instancesInit "server" (.vObj 3)
    (by decide) rfl⟩

/-- C6: the single runtime validation (key is a string) fails silently:
with a non-string key, the `isString` guard short-circuits before any
property access, so `set` leaves the backing store unchanged and `get`
returns the absent sentinel.  Both embeddings are total functions, so no
call throws on any input. -/
theorem nonstring_key_silent (st : Store) (k v : JSValue)
    (hk : isString k = false) :
    SL.set st k v = st ∧ (SL.get st k).2 = .vUndefined := by
  constructor
  · simp [SL.set, hk]
  · simp [SL.get, hk]

theorem nonstring_key_silent_witness :
    isString (JSValue.vNum 5) = false ∧
    (SL.set instancesInit (.vNum 5) (.vObj 0) = instancesInit ∧
      (SL.get instancesInit (.vNum 5)).2 = .vUndefined) :=
  ⟨rfl, nonstring_key_silent instancesInit (.vNum 5) (.vObj 0) rfl⟩

/-- C7: `get` has no side effects: for every store and every key (string
or not, present or absent), the store after the call is exactly the store
before it (the one accessor a read can hit, the `__proto__` getter, is
pure). -/
theorem get_no_side_effects (st : Store) (k : JSValue) :
    (SL.get st k).1 = st :=
  get_fst_eq st k

/-- C8 counterexample: a Present → Absent transition IS reachable through
the public contract when Present means "`get(k)` returns a value rather
than `undefined`": after `set("server", 1)` the key is Present, and the
single further public call `set("server", 0)` makes `get("server")`
return `undefined` again. -/
theorem present_to_absent_reachable :
    (SL.get (runOps [Op.opSet (.vStr "server") (.vNum 1)] instancesInit)
      (.vStr "server")).2 ≠ JSValue.vUndefined ∧
    (SL.get (runOps [Op.opSet (.vStr "server") (.vNum 1),
      Op.opSet (.vStr "server") (.vNum 0)] instancesInit)
      (.vStr "server")).2 = JSValue.vUndefined := by
  decide

/-- C8 (amended): with Present for key `k` meaning that the backing store
holds an own entry for `k`, every public call keeps a Present key
Present: entries are created and overwritten but never removed, so no
Present → Absent transition is reachable. -/
theorem no_present_to_absent_entry (op : Op) (st : Store) (k : String)
    (h : hasEntry st k = true) : hasEntry (stepOp op st) k = true := by
  cases op with
  | opGet key =>
    have hg : stepOp (Op.opGet key) st = st := get_fst_eq st key
    rw [hg]
    exact h
  | opSet key v =>
    show hasEntry (SL.set st key v) k = true
    unfold SL.set
    by_cases hs : isString key = true
    · rw [if_pos hs]
      unfold assignProp
      by_cases hr : protoSetterReached st (strVal key) = true
      · rw [if_pos hr]
        unfold setterApply
        cases v <;> exact h
      · rw [if_neg hr]
        exact hasOwn_setOwn_of_hasOwn st.own (strVal key) k v h
    · rw [if_neg hs]
      exact h

theorem no_present_to_absent_entry_witness :
    hasEntry ⟨[("server", JSValue.vNum 1)], .objectProto, []⟩ "server" = true ∧
    hasEntry (stepOp (Op.opSet (.vStr "server") (.vNum 0))
      ⟨[("server", JSValue.vNum 1)], .objectProto, []⟩) "server" = true :=
  ⟨by decide, no_present_to_absent_entry (Op.opSet (.vStr "server") (.vNum 0))
    ⟨[("server", JSValue.vNum 1)], .objectProto, []⟩ "server" (by decide)⟩

/-- C9 counterexample: the frame fails at `"__proto__"`: in a state where
the caller holds an object `{logger: x}` (identity `0`, with `x` the
object of identity `1`), `get("logger")` is absent, yet the single call
`set("__proto__", {logger: x})` rewires the prototype and changes
`get("logger")` to return `x`, although `"logger" ≠ "__proto__"`. -/
theorem set_frame_proto_cex :
    ("logger" : String) ≠ "__proto__" ∧
    (SL.get (⟨[], .objectProto, [(0, [("logger", JSValue.vObj 1)])]⟩ : Store)
      (.vStr "logger")).2 = JSValue.vUndefined ∧
    (SL.get (SL.set (⟨[], .objectProto, [(0, [("logger", JSValue.vObj 1)])]⟩ : Store)
      (.vStr "__proto__") (.vObj 0)) (.vStr "logger")).2 = JSValue.vObj 1 := by
  decide

/-- C9 (amended, frame property of `set`): for every string key `k` other
than `"__proto__"`, writing `k` leaves the entry of every other key `k'`
unchanged in the backing store, and the result of a subsequent `get(k')`
is unaffected. -/
theorem set_frame (st : Store) (k k' : String) (v : JSValue)
    (hk : k ≠ "__proto__") (hne : k' ≠ k) :
    storeGet (SL.set st (.vStr k) v) k' = storeGet st k' ∧
    (SL.get (SL.set st (.vStr k) v) (.vStr k')).2 = (SL.get st (.vStr k')).2 := by
  rw [set_ownWrite st k v hk]
  have hst : storeGet { st with own := setOwn st.own k v } k' = storeGet st k' :=
    storeGet_setOwn_ne st k k' v hne
  refine ⟨hst, ?_⟩
  simp only [SL.get, isString, strVal, Bool.true_and, hst]
  by_cases ht : truthy (storeGet st k') = true
  · rw [if_pos ht, if_pos ht]
  · rw [if_neg ht, if_neg ht]

theorem set_frame_witness :
    (("server" : String) ≠ "__proto__" ∧ ("logger" : String) ≠ "server") ∧
    (storeGet (SL.set instancesInit (.vStr "server") (.vObj 0)) "logger" =
      storeGet instancesInit "logger" ∧
     (SL.get (SL.set instancesInit (.vStr "server") (.vObj 0))
       (.vStr "logger")).2 = (SL.get instancesInit (.vStr "logger")).2) :=
  ⟨⟨by decide, by decide⟩,
    set_frame instancesInit "server" "logger" (.vObj 0) (by decide) (by decide)⟩

/-- C10 counterexample: `set` is not idempotent at `"__proto__"`: from
the initial store, `set("__proto__", null)` once rewires the prototype to
`null` and creates no entry, but the second identical call no longer
finds the inherited accessor (the chain is empty) and creates an own
`"__proto__"` entry — the two backing-store states differ. -/
theorem set_idempotent_proto_cex :
    SL.set (SL.set instancesInit (.vStr "__proto__") JSValue.vNull)
      (.vStr "__proto__") JSValue.vNull ≠
    SL.set instancesInit (.vStr "__proto__") JSValue.vNull := by
  decide

/-- C10 (amended): `set` is idempotent for every string key `k` other
than `"__proto__"`: repeating `set(k, v)` leaves the backing store in
exactly the state one call produces. -/
theorem set_idempotent (st : Store) (k : String) (v : JSValue)
    (hk : k ≠ "__proto__") :
    SL.set (SL.set st (.vStr k) v) (.vStr k) v = SL.set st (.vStr k) v := by
  rw [set_ownWrite st k v hk, set_ownWrite _ k v hk, setOwn_setOwn_self]

theorem set_idempotent_witness :
    ("server" : String) ≠ "__proto__" ∧
    SL.set (SL.set instancesInit (.vStr "server") (.vObj 0))
      (.vStr "server") (.vObj 0) =
      SL.set instancesInit (.vStr "server") (.vObj 0) :=
  ⟨by decide, set_idempotent instancesInit "server" (.vObj 0) (by decide)⟩
